import Mathlib

/-!
Shallow embedding of the Restaurant-AI extraction pipeline
(server/services/schemaValidator.ts, webScraper.ts, dataExtractor.ts,
orchestrator.ts, server/storage.ts) and proofs about the claims of the
specification.

JavaScript values are modelled by the inductive type JSVal; numbers are
modelled by rationals (all numbers that occur in the relevant code paths are
exact decimals, no float rounding is exercised).  Strings use Lean String;
string length counts characters (all inputs considered are within the ASCII
range, where this coincides with the JS length).
-/

/-- Model of a JavaScript value as it flows through the validator. -/
inductive JSVal where
  | undefined : JSVal
  | null : JSVal
  | bool : Bool → JSVal
  | num : ℚ → JSVal
  | str : String → JSVal
  | arr : List JSVal → JSVal
  | obj : List (String × JSVal) → JSVal

/-- JS truthiness of a value (objects and arrays are always truthy). -/
def JSVal.truthy : JSVal → Bool
  | .undefined => false
  | .null => false
  | .bool b => b
  | .num q => !(q == 0)
  | .str s => !(s == "")
  | .arr _ => true
  | .obj _ => true

/-- Property access `v[key]`: field of an object, else undefined.  It is only
ever applied to truthy values in the embedded code, where JS also yields
undefined for the non-object cases that occur. -/
def JSVal.getField : JSVal → String → JSVal
  | .obj fields, k =>
    match fields.lookup k with
    | some v => v
    | none => .undefined
  | _, _ => .undefined

def JSVal.isUndefined : JSVal → Bool
  | .undefined => true
  | _ => false

def JSVal.isNull : JSVal → Bool
  | .null => true
  | _ => false

def JSVal.isEmptyStr : JSVal → Bool
  | .str s => s == ""
  | _ => false

/-!
Kernel-computable counterparts of the JS string operations used by the code
(split, trim, toLowerCase, includes, startsWith), written by structural
recursion over the character list so that concrete witnesses evaluate inside
proofs.  They agree with the JS operations on the ASCII inputs exercised.
-/

def splitListAux (sep : Char) : List Char → List (List Char)
  | [] => [[]]
  | c :: rest =>
    let r := splitListAux sep rest
    if c == sep then [] :: r
    else
      match r with
      | h :: t => (c :: h) :: t
      | [] => [[c]]

/-- JS String.split with a one-character separator. -/
def jsSplit (s : String) (sep : Char) : List String :=
  (splitListAux sep s.data).map String.mk

/-- JS String.trim (whitespace at both ends removed). -/
def jsTrim (s : String) : String :=
  String.mk (((s.data.dropWhile Char.isWhitespace).reverse.dropWhile
    Char.isWhitespace).reverse)

/-- JS String.toLowerCase. -/
def jsToLower (s : String) : String := String.mk (s.data.map Char.toLower)

def atFront [BEq α] : List α → List α → Bool
  | [], _ => true
  | _ :: _, [] => false
  | a :: as, b :: bs => a == b && atFront as bs

def subListAt [BEq α] (needle : List α) : List α → Bool
  | [] => needle.isEmpty
  | b :: bs => atFront needle (b :: bs) || subListAt needle bs

/-- JS String.includes: substring test. -/
def jsIncludes (hay needle : String) : Bool := subListAt needle.data hay.data

/-- One step of the reduce inside SchemaValidationService.hasField:
`current && current[key] !== undefined && current[key] !== null &&
current[key] !== ''`.  When `current` is truthy the JS expression evaluates to
the boolean value of the three comparisons (so the accumulator degenerates to
a boolean after the first step); when `current` is falsy the `&&` chain
returns `current` itself. -/
def hasFieldStep (current : JSVal) (key : String) : JSVal :=
  if current.truthy then
    let v := current.getField key
    .bool (!v.isUndefined && !v.isNull && !v.isEmptyStr)
  else current

/-- SchemaValidationService.hasField: reduce over `path.split('.')` starting
from the object, then compare the result against undefined. -/
def hasField (o : JSVal) (path : String) : Bool :=
  !((jsSplit path '.').foldl hasFieldStep o).isUndefined

/-- The fixed required-field list of calculateCompleteness. -/
def requiredFields : List String :=
  ["name", "address.city", "address.state", "address.country",
   "cuisineTypes", "contactInfo", "ratings", "operatingHours",
   "priceRange", "amenities", "dataSources"]

/-- The fixed optional-field list of calculateCompleteness. -/
def optionalFields : List String :=
  ["address.street", "address.postalCode", "address.coordinates",
   "contactInfo.phone", "contactInfo.email", "contactInfo.website",
   "ratings.average", "ratings.total"]

/-- JS Math.round (round half towards positive infinity). -/
def jsRound (q : ℚ) : Int := ⌊q + 1/2⌋

/-- SchemaValidationService.calculateCompleteness: required fields weigh 70%,
optional fields 30%, result rounded. -/
def calculateCompleteness (data : JSVal) : Int :=
  let requiredScore : ℕ := (requiredFields.filter (fun f => hasField data f)).length
  let optionalScore : ℕ := (optionalFields.filter (fun f => hasField data f)).length
  jsRound ((requiredScore : ℚ) / (requiredFields.length : ℚ) * 70
    + (optionalScore : ℚ) / (optionalFields.length : ℚ) * 30)

lemma hasFieldStep_bool (b : Bool) (k : String) :
    hasFieldStep (.bool b) k = .bool false := by
  cases b <;> rfl

lemma foldl_hasFieldStep_bool (ks : List String) (b : Bool) :
    ∃ b2, ks.foldl hasFieldStep (.bool b) = .bool b2 := by
  induction ks generalizing b with
  | nil => exact ⟨b, rfl⟩
  | cons k ks ih =>
    rw [List.foldl_cons, hasFieldStep_bool]
    exact ih false

lemma truthy_not_isUndefined {v : JSVal} (h : v.truthy = true) : v.isUndefined = false := by
  cases v <;> simp_all [JSVal.truthy, JSVal.isUndefined]

/-- The hasField bug: on any truthy base value the reduce accumulator becomes
a boolean after the first step, and a boolean is never undefined, so the
final comparison against undefined always succeeds. -/
lemma hasField_of_truthy (v : JSVal) (h : v.truthy = true) (path : String) :
    hasField v path = true := by
  unfold hasField
  rcases hks : jsSplit path '.' with _ | ⟨k, ks⟩
  · simp [truthy_not_isUndefined h]
  · rw [List.foldl_cons]
    have hstep : hasFieldStep v k =
        .bool (!(v.getField k).isUndefined && !(v.getField k).isNull
          && !(v.getField k).isEmptyStr) := by
      unfold hasFieldStep
      rw [h]
      simp
    rw [hstep]
    obtain ⟨b2, hb2⟩ := foldl_hasFieldStep_bool ks _
    rw [hb2]
    rfl

/-- Consequence of the hasField bug: every object scores completeness 100. -/
lemma calculateCompleteness_obj (fields : List (String × JSVal)) :
    calculateCompleteness (.obj fields) = 100 := by
  unfold calculateCompleteness
  have hR : (requiredFields.filter (fun f => hasField (.obj fields) f)) = requiredFields :=
    List.filter_eq_self.mpr (fun a _ => hasField_of_truthy (.obj fields) rfl a)
  have hO : (optionalFields.filter (fun f => hasField (.obj fields) f)) = optionalFields :=
    List.filter_eq_self.mpr (fun a _ => hasField_of_truthy (.obj fields) rfl a)
  rw [hR, hO]
  show jsRound ((11 : ℚ) / (11 : ℚ) * 70 + (8 : ℚ) / (8 : ℚ) * 30) = 100
  unfold jsRound
  apply Int.floor_eq_iff.mpr
  norm_num

lemma length_filter_requiredFields (p : String → Bool) :
    (requiredFields.filter p).length ≤ 11 := by
  have h := List.length_filter_le p requiredFields
  simpa [requiredFields] using h

lemma length_filter_optionalFields (p : String → Bool) :
    (optionalFields.filter p).length ≤ 8 := by
  have h := List.length_filter_le p optionalFields
  simpa [optionalFields] using h

lemma jsRound_nonneg {q : ℚ} (h : 0 ≤ q) : 0 ≤ jsRound q := by
  apply Int.le_floor.mpr
  push_cast
  linarith

lemma jsRound_le_100 {q : ℚ} (h : q ≤ 100) : jsRound q ≤ 100 := by
  have hlt : jsRound q < 101 := by
    apply Int.floor_lt.mpr
    push_cast
    linarith
  omega

/-- Completeness is always between 0 and 100: the weighted sum of the two
scores is bounded by 70 + 30 and rounding preserves the bounds. -/
lemma calculateCompleteness_bounds (v : JSVal) :
    0 ≤ calculateCompleteness v ∧ calculateCompleteness v ≤ 100 := by
  have ha : (((requiredFields.filter (fun f => hasField v f)).length : ℕ) : ℚ) ≤ 11 := by
    exact_mod_cast length_filter_requiredFields (fun f => hasField v f)
  have hb : (((optionalFields.filter (fun f => hasField v f)).length : ℕ) : ℚ) ≤ 8 := by
    exact_mod_cast length_filter_optionalFields (fun f => hasField v f)
  have h11 : ((requiredFields.length : ℕ) : ℚ) = 11 := by norm_num [requiredFields]
  have h8 : ((optionalFields.length : ℕ) : ℚ) = 8 := by norm_num [optionalFields]
  have ha0 : (0 : ℚ) ≤ (((requiredFields.filter (fun f => hasField v f)).length : ℕ) : ℚ) :=
    Nat.cast_nonneg _
  have hb0 : (0 : ℚ) ≤ (((optionalFields.filter (fun f => hasField v f)).length : ℕ) : ℚ) :=
    Nat.cast_nonneg _
  have harg0 : (0 : ℚ) ≤
      (((requiredFields.filter (fun f => hasField v f)).length : ℕ) : ℚ)
        / ((requiredFields.length : ℕ) : ℚ) * 70
      + (((optionalFields.filter (fun f => hasField v f)).length : ℕ) : ℚ)
        / ((optionalFields.length : ℕ) : ℚ) * 30 := by
    rw [h11, h8]
    positivity
  have harg1 :
      (((requiredFields.filter (fun f => hasField v f)).length : ℕ) : ℚ)
        / ((requiredFields.length : ℕ) : ℚ) * 70
      + (((optionalFields.filter (fun f => hasField v f)).length : ℕ) : ℚ)
        / ((optionalFields.length : ℕ) : ℚ) * 30 ≤ 100 := by
    rw [h11, h8]
    have e1 : (((requiredFields.filter (fun f => hasField v f)).length : ℕ) : ℚ) / 11 * 70
        = (((requiredFields.filter (fun f => hasField v f)).length : ℕ) : ℚ) * (70 / 11) := by
      ring
    have e2 : (((optionalFields.filter (fun f => hasField v f)).length : ℕ) : ℚ) / 8 * 30
        = (((optionalFields.filter (fun f => hasField v f)).length : ℕ) : ℚ) * (30 / 8) := by
      ring
    rw [e1, e2]
    have b1 : (((requiredFields.filter (fun f => hasField v f)).length : ℕ) : ℚ) * (70 / 11)
        ≤ 11 * (70 / 11) := by
      apply mul_le_mul_of_nonneg_right ha
      norm_num
    have b2 : (((optionalFields.filter (fun f => hasField v f)).length : ℕ) : ℚ) * (30 / 8)
        ≤ 8 * (30 / 8) := by
      apply mul_le_mul_of_nonneg_right hb
      norm_num
    norm_num at b1 b2
    linarith
  exact ⟨jsRound_nonneg harg0, jsRound_le_100 harg1⟩

/-- Coordinates object of the canonical schema. -/
structure Coordinates where
  lat : ℚ
  lng : ℚ
deriving DecidableEq

/-- Address as parsed by addressSchema. -/
structure Address where
  street : Option String
  city : String
  state : String
  postalCode : Option String
  country : String
  coordinates : Option Coordinates
deriving DecidableEq

/-- Contact info as parsed by contactInfoSchema. -/
structure ContactInfo where
  phone : Option String
  email : Option String
  website : Option String
deriving DecidableEq

/-- One per-source rating entry of ratingsSchema.sources. -/
structure SourceRating where
  rating : ℚ
  count : ℚ
deriving DecidableEq

/-- Ratings as parsed by ratingsSchema. -/
structure Ratings where
  average : Option ℚ
  total : Option ℚ
  sources : List (String × SourceRating)
deriving DecidableEq

/-- A value of the operatingHours record: open/close pair or closed flag. -/
inductive DayHours where
  | openClose (openT closeT : String)
  | closedFlag (b : Bool)
deriving DecidableEq

/-- One provenance entry of the dataSources array. -/
structure ProvenanceEntry where
  source : String
  url : Option String
  extractedAt : String
  reliability : ℚ
deriving DecidableEq

/-- The canonical restaurant record, output type of restaurantDataSchema. -/
structure RestaurantData where
  restaurantId : Option String
  name : String
  address : Address
  cuisineTypes : List String
  contactInfo : ContactInfo
  ratings : Ratings
  operatingHours : List (String × DayHours)
  priceRange : String
  amenities : List String
  dataSources : List ProvenanceEntry
deriving DecidableEq

/-- The character class matched by the JS regex escape for whitespace, in the
ASCII range actually exercised by the data. -/
def jsWhitespaceChar (c : Char) : Bool :=
  c = ' ' || c = '\t' || c = '\n' || c = '\r' || c = '\x0B' || c = '\x0C'

/-- Match of the core pattern of isValidPhoneNumber: one digit 6-9 followed by
exactly nine digits, consuming the whole list. -/
def phoneDigitsCore : List Char → Bool
  | c :: rest => ('6' ≤ c && c ≤ '9') && rest.length == 9 && rest.all Char.isDigit
  | [] => false

/-- SchemaValidationService.isValidPhoneNumber: strip whitespace and dashes,
then match the anchored pattern with optional +91 or 0 country code. -/
def isValidPhoneNumber (phone : String) : Bool :=
  let cleaned := phone.data.filter (fun c => !(jsWhitespaceChar c || c == '-'))
  phoneDigitsCore cleaned
    || (match cleaned with
        | '+' :: '9' :: '1' :: rest => phoneDigitsCore rest
        | _ => false)
    || (match cleaned with
        | '0' :: rest => phoneDigitsCore rest
        | _ => false)

/-- SchemaValidationService.isValidEmail: the anchored pattern one-or-more
non-space-non-at, at sign, one-or-more non-space-non-at, dot, one-or-more
non-space-non-at.  Equivalently: no whitespace, exactly one at sign which is
not first, and a dot strictly inside the part after the at sign. -/
def isValidEmail (email : String) : Bool :=
  let cs := email.data
  let a := cs.takeWhile (fun c => c ≠ '@')
  match cs.dropWhile (fun c => c ≠ '@') with
  | '@' :: after =>
    (!a.isEmpty) && a.all (fun c => !jsWhitespaceChar c)
      && after.all (fun c => !(jsWhitespaceChar c) && c ≠ '@')
      && ((after.drop 1).dropLast.contains '.')
  | _ => false

/-- SchemaValidationService.isIndianPhoneNumber: strip whitespace, dashes and
plus signs; accept if the result starts with 91 or is a bare 10-digit mobile
number beginning with 6-9. -/
def isIndianPhoneNumber (phone : String) : Bool :=
  let cleaned := phone.data.filter (fun c => !(jsWhitespaceChar c || c == '-' || c == '+'))
  atFront "91".data cleaned || phoneDigitsCore cleaned

/-- SchemaValidationService.calculateAccuracy on a schema-parsed record (the
only values it is applied to): fixed penalties, clamped to the range 0-100.
Truthiness tests of the JS source are rendered explicitly: a string is falsy
exactly when empty, a number exactly when zero. -/
def calculateAccuracy (d : RestaurantData) : Int :=
  let p1 : Int := if d.name = "" || d.name.length < 2 then 10 else 0
  let p2 : Int := if d.address.city = "" || d.address.state = "" then 15 else 0
  let p3 : Int := match d.contactInfo.phone with
    | some p => if p ≠ "" && !isValidPhoneNumber p then 5 else 0
    | none => 0
  let p4 : Int := match d.contactInfo.email with
    | some e => if e ≠ "" && !isValidEmail e then 5 else 0
    | none => 0
  let p5 : Int := if d.cuisineTypes.isEmpty then 10 else 0
  let p6 : Int := match d.ratings.average with
    | some a => if a ≠ 0 && (a < 0 || a > 5) then 5 else 0
    | none => 0
  let p7 : Int := if d.operatingHours.isEmpty then 10 else 0
  max 0 (min 100 (100 - (p1 + p2 + p3 + p4 + p5 + p6 + p7)))

/-- SchemaValidationService.generateWarnings, in source order. -/
def generateWarnings (d : RestaurantData) : List String :=
  (if d.name ≠ "" && d.name.length > 100
    then ["Restaurant name is unusually long"] else [])
  ++ (if d.cuisineTypes.length > 10
    then ["Too many cuisine types specified"] else [])
  ++ (match d.contactInfo.phone with
      | some p =>
        if p ≠ "" && !isIndianPhoneNumber p
          then ["Phone number may not be Indian format"] else []
      | none => [])
  ++ (match d.address.coordinates with
      | some _ => []
      | none => ["Missing geographical coordinates"])
  ++ (match d.ratings.average, d.ratings.total with
      | some a, some t =>
        if a ≠ 0 && t == 0
          then ["Average rating provided without total count"] else []
      | some a, none =>
        if a ≠ 0 then ["Average rating provided without total count"] else []
      | none, _ => [])

/-- Accuracy is clamped to the range 0-100 by the final max and min. -/
lemma calculateAccuracy_bounds (d : RestaurantData) :
    0 ≤ calculateAccuracy d ∧ calculateAccuracy d ≤ 100 := by
  unfold calculateAccuracy
  constructor
  · exact le_max_left 0 _
  · exact max_le (by norm_num) (min_le_left 100 _)

/-- One zod issue: its path, code, received type tag (for invalid_type
issues) and default message (message texts follow the zod defaults; no claim
depends on their exact wording). -/
structure ZodIssue where
  path : List String
  code : String
  received : Option String
  message : String
deriving DecidableEq

def prefixIssues (k : String) (l : List ZodIssue) : List ZodIssue :=
  l.map (fun i => { i with path := k :: i.path })

def errsOf {α : Type} : Except (List ZodIssue) α → List ZodIssue
  | .error e => e
  | .ok _ => []

def exOk {ε α : Type} : Except ε α → Bool
  | .ok _ => true
  | .error _ => false

/-- Accumulating product of two zod results, issues concatenated in schema
order, as zod collects issues across all fields of an object. -/
def zodBoth {α β : Type} :
    Except (List ZodIssue) α → Except (List ZodIssue) β → Except (List ZodIssue) (α × β)
  | .ok a, .ok b => .ok (a, b)
  | .ok _, .error e => .error e
  | .error e, .ok _ => .error e
  | .error e1, .error e2 => .error (e1 ++ e2)

def typeNameOf : JSVal → String
  | .undefined => "undefined"
  | .null => "null"
  | .bool _ => "boolean"
  | .num _ => "number"
  | .str _ => "string"
  | .arr _ => "array"
  | .obj _ => "object"

def requiredIssue : ZodIssue :=
  { path := [], code := "invalid_type", received := some "undefined", message := "Required" }

def invalidTypeIssue (expected : String) (v : JSVal) : ZodIssue :=
  { path := [], code := "invalid_type", received := some (typeNameOf v),
    message := "Expected " ++ expected ++ ", received " ++ typeNameOf v }

def zodString : JSVal → Except (List ZodIssue) String
  | .str s => .ok s
  | .undefined => .error [requiredIssue]
  | v => .error [invalidTypeIssue "string" v]

def tooSmallStringIssue (n : ℕ) : ZodIssue :=
  { path := [], code := "too_small", received := none,
    message := "String must contain at least " ++ toString n ++ " character(s)" }

def zodStringMin (n : ℕ) (v : JSVal) : Except (List ZodIssue) String :=
  match zodString v with
  | .ok s => if s.length < n then .error [tooSmallStringIssue n] else .ok s
  | .error e => .error e

def zodNumber : JSVal → Except (List ZodIssue) ℚ
  | .num q => .ok q
  | .undefined => .error [requiredIssue]
  | v => .error [invalidTypeIssue "number" v]

def numBoundIssues (lo hi : Option ℚ) (q : ℚ) : List ZodIssue :=
  (match lo with
   | some l =>
     if q < l then
       [{ path := [], code := "too_small", received := none,
          message := "Number must be greater than or equal to " ++ toString l }]
     else []
   | none => [])
  ++ (match hi with
   | some h =>
     if h < q then
       [{ path := [], code := "too_big", received := none,
          message := "Number must be less than or equal to " ++ toString h }]
     else []
   | none => [])

def zodNumberIn (lo hi : Option ℚ) (v : JSVal) : Except (List ZodIssue) ℚ :=
  match zodNumber v with
  | .ok q =>
    match numBoundIssues lo hi q with
    | [] => .ok q
    | l => .error l
  | .error e => .error e

def zodBool : JSVal → Except (List ZodIssue) Bool
  | .bool b => .ok b
  | .undefined => .error [requiredIssue]
  | v => .error [invalidTypeIssue "boolean" v]

/-- z.optional: undefined parses to none, anything else through the inner
schema. -/
def zodOptional {α : Type} (p : JSVal → Except (List ZodIssue) α) (v : JSVal) :
    Except (List ZodIssue) (Option α) :=
  match v with
  | .undefined => .ok none
  | w => (p w).map some

/-- Parse the field `k` of an object, prefixing issue paths with the key
(a missing key reads as undefined, as in JS). -/
def atKey {α : Type} (v : JSVal) (k : String) (p : JSVal → Except (List ZodIssue) α) :
    Except (List ZodIssue) α :=
  match p (v.getField k) with
  | .ok a => .ok a
  | .error l => .error (prefixIssues k l)

/-- z.string().email(); the email predicate of the zod library is not part of
this repository and is abstracted as the parameter ec. -/
def zodEmailString (ec : String → Bool) (v : JSVal) : Except (List ZodIssue) String :=
  match zodString v with
  | .ok s =>
    if ec s then .ok s
    else .error [{ path := [], code := "invalid_string", received := none,
                   message := "Invalid email" }]
  | .error e => .error e

/-- z.string().url(); the url predicate of the zod library is abstracted as
the parameter uc. -/
def zodUrlString (uc : String → Bool) (v : JSVal) : Except (List ZodIssue) String :=
  match zodString v with
  | .ok s =>
    if uc s then .ok s
    else .error [{ path := [], code := "invalid_string", received := none,
                   message := "Invalid url" }]
  | .error e => .error e

def zodEnum (options : List String) (v : JSVal) : Except (List ZodIssue) String :=
  match v with
  | .str s =>
    if options.contains s then .ok s
    else .error [{ path := [], code := "invalid_enum_value", received := none,
                   message := "Invalid enum value" }]
  | .undefined => .error [requiredIssue]
  | w => .error [invalidTypeIssue "string" w]

def priceRangeOptions : List String := ["budget", "mid-range", "fine-dining", "luxury"]

/-- Parse array elements in order, issue paths prefixed with the index. -/
def zodElemsAux {α : Type} (p : JSVal → Except (List ZodIssue) α) :
    ℕ → List JSVal → Except (List ZodIssue) (List α)
  | _, [] => .ok []
  | i, x :: xs =>
    let hd : Except (List ZodIssue) α :=
      match p x with
      | .ok a => .ok a
      | .error l => .error (prefixIssues (toString i) l)
    (zodBoth hd (zodElemsAux p (i + 1) xs)).map (fun (a, as) => a :: as)

def tooSmallArrayIssue (n : ℕ) : ZodIssue :=
  { path := [], code := "too_small", received := none,
    message := "Array must contain at least " ++ toString n ++ " element(s)" }

def zodArrayMin {α : Type} (n : ℕ) (p : JSVal → Except (List ZodIssue) α) (v : JSVal) :
    Except (List ZodIssue) (List α) :=
  match v with
  | .arr xs =>
    let elems := zodElemsAux p 0 xs
    if xs.length < n then .error ([tooSmallArrayIssue n] ++ errsOf elems)
    else elems
  | .undefined => .error [requiredIssue]
  | w => .error [invalidTypeIssue "array" w]

/-- Parse all values of a record (plain object), key order as given. -/
def zodRecordAux {α : Type} (p : JSVal → Except (List ZodIssue) α) :
    List (String × JSVal) → Except (List ZodIssue) (List (String × α))
  | [] => .ok []
  | (k, x) :: rest =>
    let hd : Except (List ZodIssue) (String × α) :=
      match p x with
      | .ok a => .ok (k, a)
      | .error l => .error (prefixIssues k l)
    (zodBoth hd (zodRecordAux p rest)).map (fun (a, as) => a :: as)

def zodRecord {α : Type} (p : JSVal → Except (List ZodIssue) α) (v : JSVal) :
    Except (List ZodIssue) (List (String × α)) :=
  match v with
  | .obj fields => zodRecordAux p fields
  | .undefined => .error [requiredIssue]
  | w => .error [invalidTypeIssue "object" w]

def parseCoordinates (v : JSVal) : Except (List ZodIssue) Coordinates :=
  match v with
  | .obj _ =>
    (zodBoth (atKey v "lat" zodNumber) (atKey v "lng" zodNumber)).map
      (fun (la, ln) => ⟨la, ln⟩)
  | .undefined => .error [requiredIssue]
  | w => .error [invalidTypeIssue "object" w]

/-- addressSchema of schemaValidator.ts. -/
def parseAddress (v : JSVal) : Except (List ZodIssue) Address :=
  match v with
  | .obj _ =>
    (zodBoth (atKey v "street" (zodOptional zodString))
     (zodBoth (atKey v "city" (zodStringMin 1))
      (zodBoth (atKey v "state" (zodStringMin 1))
       (zodBoth (atKey v "postalCode" (zodOptional zodString))
        (zodBoth (atKey v "country" (zodStringMin 1))
         (atKey v "coordinates" (zodOptional parseCoordinates))))))).map
      (fun (st, ci, sta, po, co, cds) => ⟨st, ci, sta, po, co, cds⟩)
  | .undefined => .error [requiredIssue]
  | w => .error [invalidTypeIssue "object" w]

/-- contactInfoSchema of schemaValidator.ts. -/
def parseContactInfo (ec uc : String → Bool) (v : JSVal) :
    Except (List ZodIssue) ContactInfo :=
  match v with
  | .obj _ =>
    (zodBoth (atKey v "phone" (zodOptional zodString))
     (zodBoth (atKey v "email" (zodOptional (zodEmailString ec)))
      (atKey v "website" (zodOptional (zodUrlString uc))))).map
      (fun (p, e, w) => ⟨p, e, w⟩)
  | .undefined => .error [requiredIssue]
  | w => .error [invalidTypeIssue "object" w]

def parseSourceRating (v : JSVal) : Except (List ZodIssue) SourceRating :=
  match v with
  | .obj _ =>
    (zodBoth (atKey v "rating" (zodNumberIn (some 0) (some 5)))
     (atKey v "count" (zodNumberIn (some 0) none))).map
      (fun (r, c) => ⟨r, c⟩)
  | .undefined => .error [requiredIssue]
  | w => .error [invalidTypeIssue "object" w]

/-- ratingsSchema of schemaValidator.ts. -/
def parseRatings (v : JSVal) : Except (List ZodIssue) Ratings :=
  match v with
  | .obj _ =>
    (zodBoth (atKey v "average" (zodOptional (zodNumberIn (some 0) (some 5))))
     (zodBoth (atKey v "total" (zodOptional (zodNumberIn (some 0) none)))
      (atKey v "sources" (zodRecord parseSourceRating)))).map
      (fun (av, tot, src) => ⟨av, tot, src⟩)
  | .undefined => .error [requiredIssue]
  | w => .error [invalidTypeIssue "object" w]

def parseOpenClose (v : JSVal) : Except (List ZodIssue) DayHours :=
  match v with
  | .obj _ =>
    (zodBoth (atKey v "open" zodString) (atKey v "close" zodString)).map
      (fun (o, c) => .openClose o c)
  | .undefined => .error [requiredIssue]
  | w => .error [invalidTypeIssue "object" w]

def parseClosedObj (v : JSVal) : Except (List ZodIssue) DayHours :=
  match v with
  | .obj _ => (atKey v "closed" zodBool).map .closedFlag
  | .undefined => .error [requiredIssue]
  | w => .error [invalidTypeIssue "object" w]

def invalidUnionIssue : ZodIssue :=
  { path := [], code := "invalid_union", received := none, message := "Invalid input" }

/-- The union inside operatingHoursSchema: open/close object or closed
object, first success wins, single invalid_union issue when both fail. -/
def parseDayHours (v : JSVal) : Except (List ZodIssue) DayHours :=
  match parseOpenClose v with
  | .ok d => .ok d
  | .error _ =>
    match parseClosedObj v with
    | .ok d => .ok d
    | .error _ => .error [invalidUnionIssue]

/-- One element of the dataSources array schema. -/
def parseProvenance (v : JSVal) : Except (List ZodIssue) ProvenanceEntry :=
  match v with
  | .obj _ =>
    (zodBoth (atKey v "source" zodString)
     (zodBoth (atKey v "url" (zodOptional zodString))
      (zodBoth (atKey v "extractedAt" zodString)
       (atKey v "reliability" (zodNumberIn (some 0) (some 1)))))).map
      (fun (s, u, e, r) => ⟨s, u, e, r⟩)
  | .undefined => .error [requiredIssue]
  | w => .error [invalidTypeIssue "object" w]

/-- restaurantDataSchema.parse, fields in shape order.  Unknown keys are
stripped (zod object default). -/
def parseRestaurantData (ec uc : String → Bool) (v : JSVal) :
    Except (List ZodIssue) RestaurantData :=
  match v with
  | .obj _ =>
    (zodBoth (atKey v "restaurantId" (zodOptional zodString))
     (zodBoth (atKey v "name" (zodStringMin 1))
      (zodBoth (atKey v "address" parseAddress)
       (zodBoth (atKey v "cuisineTypes" (zodArrayMin 1 zodString))
        (zodBoth (atKey v "contactInfo" (parseContactInfo ec uc))
         (zodBoth (atKey v "ratings" parseRatings)
          (zodBoth (atKey v "operatingHours" (zodRecord parseDayHours))
           (zodBoth (atKey v "priceRange" (zodEnum priceRangeOptions))
            (zodBoth (atKey v "amenities" (zodArrayMin 0 zodString))
             (atKey v "dataSources" (zodArrayMin 0 parseProvenance))))))))))).map
      (fun (rid, nm, ad, cts, ci, rts, oh, pr, am, ds) =>
        ⟨rid, nm, ad, cts, ci, rts, oh, pr, am, ds⟩)
  | .undefined => .error [requiredIssue]
  | w => .error [invalidTypeIssue "object" w]

/-!
The relaxed schema used on the structural-failure path:
`restaurantDataSchema.deepPartial()`.  Following the zod implementation of
deepPartialify: every property of an object becomes optional and is
deep-partialified; array element schemas are deep-partialified (the array
itself and its min check stay); records, unions, enums and primitive checks
are left unchanged.  The parse result is the stripped JS object handed to
calculateCompleteness, reconstructed here as a JSVal.
-/

def relString (v : JSVal) : Except (List ZodIssue) JSVal :=
  (zodString v).map .str

def relStringMin (n : ℕ) (v : JSVal) : Except (List ZodIssue) JSVal :=
  (zodStringMin n v).map .str

def relNumIn (lo hi : Option ℚ) (v : JSVal) : Except (List ZodIssue) JSVal :=
  (zodNumberIn lo hi v).map .num

def relEnum (options : List String) (v : JSVal) : Except (List ZodIssue) JSVal :=
  (zodEnum options v).map .str

def relEmail (ec : String → Bool) (v : JSVal) : Except (List ZodIssue) JSVal :=
  (zodEmailString ec v).map .str

def relUrl (uc : String → Bool) (v : JSVal) : Except (List ZodIssue) JSVal :=
  (zodUrlString uc v).map .str

/-- An optional property of a deep-partialified object: absent/undefined keys
are skipped, present keys are checked and re-emitted. -/
def relOptEntry (v : JSVal) (k : String) (chk : JSVal → Except (List ZodIssue) JSVal) :
    Except (List ZodIssue) (List (String × JSVal)) :=
  match v.getField k with
  | .undefined => .ok []
  | w =>
    match chk w with
    | .ok w2 => .ok [(k, w2)]
    | .error l => .error (prefixIssues k l)

def relCoordinates (v : JSVal) : Except (List ZodIssue) JSVal :=
  match v with
  | .obj _ =>
    (zodBoth (relOptEntry v "lat" (relNumIn none none))
     (relOptEntry v "lng" (relNumIn none none))).map
      (fun (a, b) => .obj (a ++ b))
  | .undefined => .error [requiredIssue]
  | w => .error [invalidTypeIssue "object" w]

def relAddress (v : JSVal) : Except (List ZodIssue) JSVal :=
  match v with
  | .obj _ =>
    (zodBoth (relOptEntry v "street" relString)
     (zodBoth (relOptEntry v "city" (relStringMin 1))
      (zodBoth (relOptEntry v "state" (relStringMin 1))
       (zodBoth (relOptEntry v "postalCode" relString)
        (zodBoth (relOptEntry v "country" (relStringMin 1))
         (relOptEntry v "coordinates" relCoordinates)))))).map
      (fun (a, b, c, d, e, f) => .obj (a ++ b ++ c ++ d ++ e ++ f))
  | .undefined => .error [requiredIssue]
  | w => .error [invalidTypeIssue "object" w]

def relContact (ec uc : String → Bool) (v : JSVal) : Except (List ZodIssue) JSVal :=
  match v with
  | .obj _ =>
    (zodBoth (relOptEntry v "phone" relString)
     (zodBoth (relOptEntry v "email" (relEmail ec))
      (relOptEntry v "website" (relUrl uc)))).map
      (fun (a, b, c) => .obj (a ++ b ++ c))
  | .undefined => .error [requiredIssue]
  | w => .error [invalidTypeIssue "object" w]

/-- Source-rating objects sit under a record, which deepPartialify leaves
unchanged, so rating and count stay required here. -/
def relSourceRating (v : JSVal) : Except (List ZodIssue) JSVal :=
  match v with
  | .obj _ =>
    (zodBoth (atKey v "rating" (zodNumberIn (some 0) (some 5)))
     (atKey v "count" (zodNumberIn (some 0) none))).map
      (fun (r, c) => .obj [("rating", .num r), ("count", .num c)])
  | .undefined => .error [requiredIssue]
  | w => .error [invalidTypeIssue "object" w]

def relRecord (chk : JSVal → Except (List ZodIssue) JSVal) (v : JSVal) :
    Except (List ZodIssue) JSVal :=
  (zodRecord chk v).map (fun l => .obj l)

def dayHoursToJSVal : DayHours → JSVal
  | .openClose o c => .obj [("open", .str o), ("close", .str c)]
  | .closedFlag b => .obj [("closed", .bool b)]

def relDayHours (v : JSVal) : Except (List ZodIssue) JSVal :=
  (parseDayHours v).map dayHoursToJSVal

def relArrayMin (n : ℕ) (chk : JSVal → Except (List ZodIssue) JSVal) (v : JSVal) :
    Except (List ZodIssue) JSVal :=
  (zodArrayMin n chk v).map (fun l => .arr l)

def relRatings (v : JSVal) : Except (List ZodIssue) JSVal :=
  match v with
  | .obj _ =>
    (zodBoth (relOptEntry v "average" (relNumIn (some 0) (some 5)))
     (zodBoth (relOptEntry v "total" (relNumIn (some 0) none))
      (relOptEntry v "sources" (relRecord relSourceRating)))).map
      (fun (a, b, c) => .obj (a ++ b ++ c))
  | .undefined => .error [requiredIssue]
  | w => .error [invalidTypeIssue "object" w]

/-- deepPartial of the dataSources element object: all its fields optional. -/
def relProvenance (v : JSVal) : Except (List ZodIssue) JSVal :=
  match v with
  | .obj _ =>
    (zodBoth (relOptEntry v "source" relString)
     (zodBoth (relOptEntry v "url" relString)
      (zodBoth (relOptEntry v "extractedAt" relString)
       (relOptEntry v "reliability" (relNumIn (some 0) (some 1)))))).map
      (fun (a, b, c, d) => .obj (a ++ b ++ c ++ d))
  | .undefined => .error [requiredIssue]
  | w => .error [invalidTypeIssue "object" w]

/-- restaurantDataSchema.deepPartial().parse on the raw input. -/
def relaxedParse (ec uc : String → Bool) (v : JSVal) : Except (List ZodIssue) JSVal :=
  match v with
  | .obj _ =>
    (zodBoth (relOptEntry v "restaurantId" relString)
     (zodBoth (relOptEntry v "name" (relStringMin 1))
      (zodBoth (relOptEntry v "address" relAddress)
       (zodBoth (relOptEntry v "cuisineTypes" (relArrayMin 1 relString))
        (zodBoth (relOptEntry v "contactInfo" (relContact ec uc))
         (zodBoth (relOptEntry v "ratings" relRatings)
          (zodBoth (relOptEntry v "operatingHours" (relRecord relDayHours))
           (zodBoth (relOptEntry v "priceRange" (relEnum priceRangeOptions))
            (zodBoth (relOptEntry v "amenities" (relArrayMin 0 relString))
             (relOptEntry v "dataSources" (relArrayMin 0 relProvenance))))))))))).map
      (fun (a, b, c, d, e, f, g, h, i, j) =>
        .obj (a ++ b ++ c ++ d ++ e ++ f ++ g ++ h ++ i ++ j))
  | .undefined => .error [requiredIssue]
  | w => .error [invalidTypeIssue "object" w]

def optEntryStr (k : String) : Option String → List (String × JSVal)
  | some s => [(k, .str s)]
  | none => []

def optEntryNum (k : String) : Option ℚ → List (String × JSVal)
  | some q => [(k, .num q)]
  | none => []

def Coordinates.toJSVal (c : Coordinates) : JSVal :=
  .obj [("lat", .num c.lat), ("lng", .num c.lng)]

def Address.toJSVal (a : Address) : JSVal :=
  .obj (optEntryStr "street" a.street
    ++ [("city", .str a.city), ("state", .str a.state)]
    ++ optEntryStr "postalCode" a.postalCode
    ++ [("country", .str a.country)]
    ++ (match a.coordinates with
        | some c => [("coordinates", c.toJSVal)]
        | none => []))

def ContactInfo.toJSVal (c : ContactInfo) : JSVal :=
  .obj (optEntryStr "phone" c.phone ++ optEntryStr "email" c.email
    ++ optEntryStr "website" c.website)

def Ratings.toJSVal (r : Ratings) : JSVal :=
  .obj (optEntryNum "average" r.average ++ optEntryNum "total" r.total
    ++ [("sources", .obj (r.sources.map (fun (k, sr) =>
         (k, JSVal.obj [("rating", .num sr.rating), ("count", .num sr.count)]))))])

def ProvenanceEntry.toJSVal (p : ProvenanceEntry) : JSVal :=
  .obj ([("source", .str p.source)] ++ optEntryStr "url" p.url
    ++ [("extractedAt", .str p.extractedAt), ("reliability", .num p.reliability)])

/-- The parse output as a JS object (handed to calculateCompleteness and the
warning and accuracy checks); keys in shape order, absent optional fields
omitted. -/
def RestaurantData.toJSVal (d : RestaurantData) : JSVal :=
  .obj (optEntryStr "restaurantId" d.restaurantId
    ++ [("name", .str d.name), ("address", d.address.toJSVal),
        ("cuisineTypes", .arr (d.cuisineTypes.map .str)),
        ("contactInfo", d.contactInfo.toJSVal),
        ("ratings", d.ratings.toJSVal),
        ("operatingHours", .obj (d.operatingHours.map (fun (k, h) => (k, dayHoursToJSVal h)))),
        ("priceRange", .str d.priceRange),
        ("amenities", .arr (d.amenities.map .str)),
        ("dataSources", .arr (d.dataSources.map ProvenanceEntry.toJSVal))])

/-- Result record of SchemaValidationService.validateRestaurantData. -/
structure ValidationResult where
  isValid : Bool
  validatedData : Option RestaurantData
  errors : List String
  completeness : Int
  accuracy : Int
  missingFields : List String
  warnings : List String
deriving DecidableEq

/-- Rendering of one zod issue into the errors array:
path joined with dots, colon, message. -/
def renderIssue (i : ZodIssue) : String :=
  String.intercalate "." i.path ++ ": " ++ i.message

/-- SchemaValidationService.extractMissingFields: issues with code
invalid_type and received undefined, paths joined with dots. -/
def extractMissingFields (issues : List ZodIssue) : List String :=
  (issues.filter (fun i => i.code == "invalid_type" && i.received == some "undefined")).map
    (fun i => String.intercalate "." i.path)

/-- SchemaValidationService.validateRestaurantData.  The function is total: a
structural failure is reported through the result record, with a best-effort
completeness computed against the relaxed all-optional schema (0 when even
that parse fails). -/
def validateRestaurantData (ec uc : String → Bool) (data : JSVal) : ValidationResult :=
  match parseRestaurantData ec uc data with
  | .ok vd =>
    { isValid := true
      validatedData := some vd
      errors := []
      completeness := calculateCompleteness vd.toJSVal
      accuracy := calculateAccuracy vd
      missingFields := []
      warnings := generateWarnings vd }
  | .error issues =>
    { isValid := false
      validatedData := none
      errors := issues.map renderIssue
      completeness :=
        match relaxedParse ec uc data with
        | .ok pd => calculateCompleteness pd
        | .error _ => 0
      accuracy := 0
      missingFields := extractMissingFields issues
      warnings := [] }

/-!
Page model for the cheerio-based extractors.  The DOM and the regex engine
are library code, abstracted as primitive query results carried by the page:
the (trimmed at call sites) text of the first element matching a selector,
the body text, the parsed JSON-LD script, tel and mailto link targets, and
the first-match results of the phone, email, rating and hours patterns.  The
control flow around these primitives is translated from the source.
-/

/-- The address field of a parsed JSON-LD block: a string, or an object with
the optional streetAddress, addressLocality and postalCode entries. -/
inductive JsonLdAddress where
  | strA (s : String)
  | objA (streetAddress addressLocality postalCode : Option String)
deriving DecidableEq

/-- A JSON-LD script tag: either unparseable or parsed with an optional
address field (none also covers a falsy address value such as a missing
key). -/
inductive JsonLdDoc where
  | parseFail
  | parsed (address : Option JsonLdAddress)
deriving DecidableEq

structure PageDoc where
  selText : String → Option String
  bodyText : String
  jsonLd : Option JsonLdDoc
  telHref : Option String
  mailtoHref : Option String
  phoneMatch : Option String
  emailMatch : Option String
  ratingMatch : Option ℚ
  parsedHours : Option (List (String × DayHours))

def optTruthy : Option String → Bool
  | some s => s ≠ ""
  | none => false

/-- JS template interpolation with a falsy fallback to the empty string. -/
def optOrEmpty : Option String → String
  | some s => s
  | none => ""

/-- Selector loop shared by the address extractors: first selector whose
trimmed first-element text is nonempty and longer than 10 characters. -/
def firstLongText (p : PageDoc) : List String → Option String
  | [] => none
  | sel :: rest =>
    match p.selText sel with
    | some raw =>
      let t := jsTrim raw
      if t ≠ "" && t.length > 10 then some t else firstLongText p rest
    | none => firstLongText p rest

namespace WebScraper

def addressSelectors : List String :=
  ["[itemtype*=\"PostalAddress\"]", ".address", ".location", ".restaurant-address",
   "[data-testid=\"address\"]", ".contact-address"]

/-- The structured-data block of WebScrapingService.extractAddress: truthy
string address returned as is; otherwise street and locality joined and
trimmed when either is truthy. -/
def structuredAddress (p : PageDoc) : Option String :=
  match p.jsonLd with
  | some (.parsed (some (.strA s))) => if s = "" then none else some s
  | some (.parsed (some (.objA st loc _))) =>
    if optTruthy st || optTruthy loc then
      some (jsTrim (optOrEmpty st ++ " " ++ optOrEmpty loc))
    else none
  | _ => none

/-- WebScrapingService.extractAddress: the selector loop runs first and the
JSON-LD structured data is only consulted when no selector matched. -/
def extractAddress (p : PageDoc) : Option String :=
  match firstLongText p addressSelectors with
  | some t => some t
  | none => structuredAddress p

end WebScraper

namespace Extractor

def nameSelectors : List String :=
  ["h1.restaurant-name", "h1", "[data-testid=\"restaurant-name\"]",
   ".restaurant-title", "title"]

def extractNameAux (p : PageDoc) : List String → String
  | [] => "Unknown Restaurant"
  | sel :: rest =>
    match p.selText sel with
    | some raw =>
      let t := jsTrim raw
      if t ≠ "" && t.length < 200 then t else extractNameAux p rest
    | none => extractNameAux p rest

/-- DataExtractionService.extractName. -/
def extractName (p : PageDoc) : String := extractNameAux p nameSelectors

def addressSelectors : List String :=
  [".address", ".location", "[itemtype*=\"PostalAddress\"]",
   "[data-testid=\"address\"]", ".contact-address"]

/-- Structured-data fallback of DataExtractionService.findAddressText (this
variant requires a truthy streetAddress and also appends the postal code). -/
def structuredAddressText (p : PageDoc) : Option String :=
  match p.jsonLd with
  | some (.parsed (some (.strA s))) => if s = "" then none else some s
  | some (.parsed (some (.objA st loc po))) =>
    if optTruthy st then
      some (jsTrim (optOrEmpty st ++ " " ++ optOrEmpty loc ++ " " ++ optOrEmpty po))
    else none
  | _ => none

/-- DataExtractionService.findAddressText: selector loop first, JSON-LD
structured data only as fallback. -/
def findAddressText (p : PageDoc) : Option String :=
  match firstLongText p addressSelectors with
  | some t => some t
  | none => structuredAddressText p

def isWordChar (c : Char) : Bool := c.isAlpha || c.isDigit || c == '_'

def sixDigitsSplit : List Char → Option (List Char × List Char)
  | c1 :: c2 :: c3 :: c4 :: c5 :: c6 :: rest =>
    if [c1, c2, c3, c4, c5, c6].all Char.isDigit then some ([c1, c2, c3, c4, c5, c6], rest)
    else none
  | _ => none

def boundaryOk : Option Char → Bool
  | none => true
  | some c => !isWordChar c

/-- First match of the word-bounded six-digit pattern (the PIN code regex),
scanning left to right. -/
def findPinAux : Option Char → List Char → Option String
  | _, [] => none
  | prev, c :: tl =>
    match sixDigitsSplit (c :: tl) with
    | some (digits, rest) =>
      if boundaryOk prev && boundaryOk rest.head? then some (String.mk digits)
      else findPinAux (some c) tl
    | none => findPinAux (some c) tl

def indianStates : List String :=
  ["maharashtra", "delhi", "karnataka", "tamil nadu", "gujarat", "rajasthan",
   "punjab", "haryana", "uttar pradesh", "bihar", "west bengal"]

def indianCities : List String :=
  ["mumbai", "delhi", "bangalore", "chennai", "kolkata", "hyderabad", "pune",
   "ahmedabad", "surat", "jaipur", "lucknow", "kanpur", "nagpur"]

/-- The replace-first-word-character-with-uppercase idiom of the source. -/
def capFirst (s : String) : String :=
  match s.data with
  | c :: rest => if isWordChar c then String.mk (c.toUpper :: rest) else s
  | [] => s

def firstIncluded (lowerAddr : String) : List String → Option String
  | [] => none
  | s :: rest => if jsIncludes lowerAddr s then some s else firstIncluded lowerAddr rest

/-- The address object built by DataExtractionService.parseIndianAddress;
optional fields are set only when found. -/
structure ExtractedAddress where
  street : Option String
  city : Option String
  state : Option String
  postalCode : Option String
  country : String
  formatted : Option String
deriving DecidableEq

/-- DataExtractionService.parseIndianAddress. -/
def parseIndianAddress (addressText : String) : ExtractedAddress :=
  let lowerAddr := jsToLower addressText
  let pin := findPinAux none addressText.data
  let st := (firstIncluded lowerAddr indianStates).map capFirst
  let ciMatch := (firstIncluded lowerAddr indianCities).map capFirst
  let ci := match ciMatch with
    | some c => some c
    | none =>
      let parts := (jsSplit addressText ',').map jsTrim
      if parts.length > 1 then
        match parts.get? (parts.length - 2) with
        | some c => some (if c = "" then "Unknown" else c)
        | none => some "Unknown"
      else none
  { street := some addressText, city := ci, state := st, postalCode := pin,
    country := "India", formatted := some addressText }

/-- DataExtractionService.extractAddress: parse the found address text, or
the fixed Unknown/Unknown/India object when none is found. -/
def extractAddress (p : PageDoc) : ExtractedAddress :=
  match findAddressText p with
  | none => { street := none, city := some "Unknown", state := some "Unknown",
              postalCode := none, country := "India", formatted := none }
  | some t => parseIndianAddress t

structure ExtractedContact where
  phone : Option String
  email : Option String
deriving DecidableEq

/-- DataExtractionService.extractContactInfo: tel and mailto link targets
take precedence over the first body-text pattern match. -/
def extractContactInfo (p : PageDoc) : ExtractedContact :=
  { phone :=
      match p.telHref with
      | some h => some h
      | none => p.phoneMatch.map (fun s => jsTrim s)
    email :=
      match p.mailtoHref with
      | some h => some h
      | none => p.emailMatch }

structure ExtractedRatings where
  average : Option ℚ
  sources : List (String × SourceRating)
deriving DecidableEq

/-- DataExtractionService.extractRatings: when the rating pattern matched on
some rating selector text, average and a website source entry are set. -/
def extractRatings (p : PageDoc) : ExtractedRatings :=
  match p.ratingMatch with
  | some r => { average := some r, sources := [("website", ⟨r, 1⟩)] }
  | none => { average := none, sources := [] }

/-- The fixed default weekly schedule substituted when no hours parse. -/
def defaultHours : List (String × DayHours) :=
  [("monday", .openClose "10:00" "22:00"), ("tuesday", .openClose "10:00" "22:00"),
   ("wednesday", .openClose "10:00" "22:00"), ("thursday", .openClose "10:00" "22:00"),
   ("friday", .openClose "10:00" "22:00"), ("saturday", .openClose "10:00" "23:00"),
   ("sunday", .openClose "10:00" "23:00")]

/-- DataExtractionService.extractOperatingHours: the first nonempty parsed
hours block (abstracted as the page primitive parsedHours), else the fixed
default schedule. -/
def extractOperatingHours (p : PageDoc) : List (String × DayHours) :=
  match p.parsedHours with
  | some h => h
  | none => defaultHours

/-- DataExtractionService.extractPriceRange: first keyword group that matches
the lowercased body text wins, default mid-range. -/
def extractPriceRange (p : PageDoc) : String :=
  let t := jsToLower p.bodyText
  if jsIncludes t "luxury" || jsIncludes t "fine dining" || jsIncludes t "₹₹₹₹" then
    "luxury"
  else if jsIncludes t "fine" || jsIncludes t "premium" || jsIncludes t "₹₹₹" then
    "fine-dining"
  else if jsIncludes t "affordable" || jsIncludes t "budget" || jsIncludes t "₹" then
    "budget"
  else "mid-range"

def amenityKeywords : List String :=
  ["wifi", "parking", "ac", "air conditioning", "delivery", "takeaway",
   "credit card", "cash only", "outdoor seating", "bar", "live music",
   "kids friendly", "pet friendly", "wheelchair accessible", "vegan",
   "vegetarian", "halal", "buffet", "catering", "private dining"]

/-- DataExtractionService.extractAmenities: keyword substring match on the
lowercased body text, capitalized, deduplicated keeping first occurrences. -/
def extractAmenities (p : PageDoc) : List String :=
  ((amenityKeywords.filter (fun k => jsIncludes (jsToLower p.bodyText) k)).map capFirst).eraseDups

def cuisineKeywordTable : List (String × List String) :=
  [("North Indian", ["north indian", "punjabi", "dal", "naan", "tandoor", "butter chicken"]),
   ("South Indian", ["south indian", "dosa", "idli", "sambar", "vada", "uttapam"]),
   ("Chinese", ["chinese", "chow mein", "fried rice", "manchurian", "hakka"]),
   ("Italian", ["italian", "pizza", "pasta", "lasagna", "spaghetti"]),
   ("Continental", ["continental", "continental food"]),
   ("Fast Food", ["fast food", "burger", "sandwich", "fries"]),
   ("Vegetarian", ["vegetarian", "veg only", "pure veg"]),
   ("Bakery", ["bakery", "cakes", "pastries", "bread", "cookies"]),
   ("Street Food", ["street food", "chaat", "pani puri", "bhel puri"]),
   ("Seafood", ["seafood", "fish", "prawns", "crab", "lobster"])]

/-- DataExtractionService.extractCuisineTypes: a tag is included when any of
its keywords is a substring of body text plus restaurant name, lowercased;
the single generic tag Indian when none match. -/
def extractCuisineTypes (p : PageDoc) (restaurantName : String) : List String :=
  let text := jsToLower (p.bodyText ++ " " ++ restaurantName)
  let cuisines := (cuisineKeywordTable.filter
    (fun e => e.2.any (fun kw => jsIncludes text kw))).map (fun e => e.1)
  if cuisines.isEmpty then ["Indian"] else cuisines

/-- The record assembled by DataExtractionService.extractRestaurantData. -/
structure ExtractedData where
  dataSources : List ProvenanceEntry
  name : String
  address : ExtractedAddress
  contactInfo : ExtractedContact
  ratings : ExtractedRatings
  operatingHours : List (String × DayHours)
  priceRange : String
  amenities : List String
  cuisineTypes : List String
deriving DecidableEq

/-- DataExtractionService.extractRestaurantData; nowIso stands for the
extraction timestamp produced at call time. -/
def extractRestaurantData (p : PageDoc) (sourceUrl nowIso : String) : ExtractedData :=
  let nm := extractName p
  { dataSources := [⟨"web-scraping", some sourceUrl, nowIso, mkRat 4 5⟩]  -- 0.8
    name := nm
    address := extractAddress p
    contactInfo := extractContactInfo p
    ratings := extractRatings p
    operatingHours := extractOperatingHours p
    priceRange := extractPriceRange p
    amenities := extractAmenities p
    cuisineTypes := extractCuisineTypes p nm }

/-- The extractor never returns an empty cuisine list: the generic tag is
substituted when no keyword matches. -/
lemma ifEmpty_ne_nil (L d : List String) (hd : d ≠ []) :
    (if L.isEmpty then d else L) ≠ [] := by
  rcases L with _ | ⟨a, as⟩ <;> simp [hd]

lemma extractCuisineTypes_ne_nil (p : PageDoc) (nm : String) :
    extractCuisineTypes p nm ≠ [] := by
  simp only [extractCuisineTypes]
  exact ifEmpty_ne_nil _ _ (by simp)

def ExtractedAddress.toJSVal (a : ExtractedAddress) : JSVal :=
  .obj ([("country", .str a.country)]
    ++ optEntryStr "postalCode" a.postalCode
    ++ optEntryStr "state" a.state
    ++ optEntryStr "city" a.city
    ++ optEntryStr "street" a.street
    ++ optEntryStr "formatted" a.formatted)

def ExtractedContact.toJSVal (c : ExtractedContact) : JSVal :=
  .obj (optEntryStr "phone" c.phone ++ optEntryStr "email" c.email)

def ExtractedRatings.toJSVal (r : ExtractedRatings) : JSVal :=
  .obj ([("sources", .obj (r.sources.map (fun e =>
      (e.1, JSVal.obj [("rating", .num e.2.rating), ("count", .num e.2.count)]))))]
    ++ optEntryNum "average" r.average)

/-- The extracted record as the JS object handed to the validator. -/
def ExtractedData.toJSVal (d : ExtractedData) : JSVal :=
  .obj [("dataSources", .arr (d.dataSources.map ProvenanceEntry.toJSVal)),
        ("name", .str d.name),
        ("address", d.address.toJSVal),
        ("contactInfo", d.contactInfo.toJSVal),
        ("ratings", d.ratings.toJSVal),
        ("operatingHours", .obj (d.operatingHours.map (fun e => (e.1, dayHoursToJSVal e.2)))),
        ("priceRange", .str d.priceRange),
        ("amenities", .arr (d.amenities.map .str)),
        ("cuisineTypes", .arr (d.cuisineTypes.map .str))]

end Extractor

/-!
Pipeline model: PipelineOrchestrator.processRestaurantUrl as a pure function
of the fetch outcome, the page, and the outcomes of the external reasoning
calls (supplied as an oracle).  The queue-status updates are collected in
order; completedAtSet records whether a completion timestamp was written.
The gemini-llm agent handle is registered by initialization and is modelled
as present.
-/

/-- The scraped page as used downstream by the orchestrator: title for the
queue entry, description for the cuisine request, raw content re-parsed by
the extractor (the same page document). -/
structure ScrapedData where
  title : String
  description : Option String
  page : PageDoc

/-- Oracle for the two external reasoning calls the orchestrator can make. -/
structure GeminiOracle where
  cuisine : Except String (List String)
  addressV : Except String (List (String × JSVal))

/-- The fields of the persisted restaurant record that the claims inspect
(the remaining createRestaurant fields are data already carried by the
trace inputs). -/
structure PersistedRestaurant where
  name : String
  cuisineTypes : List String
  status : String
  completeness : String
  accuracy : String
  website : String
deriving DecidableEq

structure PipelineTrace where
  statuses : List String
  geminiCalls : ℕ
  persisted : Option PersistedRestaurant
  errorMessage : Option String
  completedAtSet : Bool
deriving DecidableEq

/-- JS `x || d` for the string name field: the empty string is falsy. -/
def jsStrOrDefault (s d : String) : String := if s = "" then d else s

/-- JS `x || d` for the cuisineTypes array at the persistence step: arrays,
including the empty array, are truthy, and the field is always set by the
extractor, so the left operand is always kept; the default list would only
be reached from an undefined or null value, which the typed pipeline never
produces. -/
def jsArrOrDefault (l _d : List String) : List String := l

def failTrace (st : List String) (calls : ℕ) (msg : String) : PipelineTrace :=
  { statuses := st ++ ["failed"], geminiCalls := calls, persisted := none,
    errorMessage := some msg, completedAtSet := true }

/-- Step 5 of processRestaurantUrl: storage.createRestaurant and the final
queue update to completed. -/
def persistPhase (url : String) (ex : Extractor.ExtractedData) (vr : ValidationResult)
    (st : List String) (calls : ℕ) : PipelineTrace :=
  { statuses := st ++ ["completed"]
    geminiCalls := calls
    persisted := some
      { name := jsStrOrDefault ex.name "Unknown Restaurant"
        cuisineTypes := jsArrOrDefault ex.cuisineTypes ["Indian"]
        status := if vr.isValid then "validated" else "pending"
        completeness := toString vr.completeness
        accuracy := toString vr.accuracy
        website := url }
    errorMessage := none
    completedAtSet := true }

/-- The conditional address-validation reasoning call: fired when the
extracted address (always an object, hence truthy) exists and the warnings
contain the missing-coordinates flag; its merged result is spread into the
address, which no claim inspects further. -/
def addressPhase (url : String) (gem : GeminiOracle) (ex : Extractor.ExtractedData)
    (vr : ValidationResult) (st : List String) (calls : ℕ) : PipelineTrace :=
  if vr.warnings.contains "Missing geographical coordinates" then
    match gem.addressV with
    | .error e => failTrace st (calls + 1) e
    | .ok _ => persistPhase url ex vr st (calls + 1)
  else persistPhase url ex vr st calls

/-- The llm_processing branch body: the cuisine classification call fires
when the extracted cuisine list is empty, its failure fails the work item,
its result overwrites the cuisine list; then the address call. -/
def llmPhase (url : String) (gem : GeminiOracle) (ex : Extractor.ExtractedData)
    (vr : ValidationResult) (st : List String) : PipelineTrace :=
  if ex.cuisineTypes.isEmpty then
    match gem.cuisine with
    | .error e => failTrace st 1 e
    | .ok cts => addressPhase url gem { ex with cuisineTypes := cts } vr st 1
  else addressPhase url gem ex vr st 0

def baseStatuses : List String := ["queued", "scraping", "extracting", "validating"]

/-- PipelineOrchestrator.processRestaurantUrl: queue updates queued and
scraping, fetch (failure fails the item with its message and a completion
timestamp), extraction, validation, the conditional llm_processing branch,
then persistence and completion. -/
def processRestaurantUrl (ec uc : String → Bool) (url nowIso : String)
    (fetch : Except String ScrapedData) (gem : GeminiOracle) : PipelineTrace :=
  match fetch with
  | .error msg => failTrace ["queued", "scraping"] 0 msg
  | .ok sd =>
    let ex := Extractor.extractRestaurantData sd.page url nowIso
    let vr := validateRestaurantData ec uc ex.toJSVal
    if vr.isValid = false ∨ vr.completeness < 80 then
      llmPhase url gem ex vr (baseStatuses ++ ["llm_processing"])
    else persistPhase url ex vr baseStatuses 0

namespace Storage

/-- The restaurant row fields relevant to the storage claims; the remaining
columns of the row are copies of the insert payload not inspected here. -/
structure RestaurantRow where
  name : String
  cuisineTypes : List String
  description : Option String
  website : Option String
deriving DecidableEq

structure InsertRestaurant where
  name : String
  cuisineTypes : List String
  description : Option String
  website : Option String
deriving DecidableEq

/-- JS `x || null` on a nullable string column. -/
def jsOptOrNull : Option String → Option String
  | some s => if s = "" then none else some s
  | none => none

/-- State of MemStorage relevant to the claims: the restaurants map and the
totalRestaurants metric (agents, data sources, queue and the other metric
fields are untouched by the claimed operations). -/
structure MemState where
  restaurants : List (String × RestaurantRow)
  totalRestaurants : ℕ
deriving DecidableEq

/-- JS Map.set: replace in place when the key exists, else append. -/
def mapSet {α : Type} (l : List (String × α)) (k : String) (v : α) : List (String × α) :=
  if l.any (fun e => e.1 == k) then
    l.map (fun e => if e.1 == k then (k, v) else e)
  else l ++ [(k, v)]

/-- The state after the MemStorage constructor ran initializeDefaultData: no
restaurant rows, but the metric seeded with the demonstration value. -/
def initialState : MemState :=
  { restaurants := [], totalRestaurants := 12847 }

/-- MemStorage.createRestaurant: build the row (empty-string description and
website collapse to null), insert under the fresh id, then set the metric to
the map size. -/
def createRestaurant (st : MemState) (freshId : String) (ins : InsertRestaurant) :
    MemState × RestaurantRow :=
  let row : RestaurantRow :=
    { name := ins.name
      cuisineTypes := ins.cuisineTypes
      description := jsOptOrNull ins.description
      website := jsOptOrNull ins.website }
  let rs := mapSet st.restaurants freshId row
  ({ restaurants := rs, totalRestaurants := rs.length }, row)

/-- MemStorage.deleteRestaurant: Map.delete (a no-op on an unknown id, never
a failure), then set the metric to the map size. -/
def deleteRestaurant (st : MemState) (id : String) : MemState :=
  let rs := st.restaurants.filter (fun e => e.1 ≠ id)
  { restaurants := rs, totalRestaurants := rs.length }

end Storage

/-!
Concrete fixtures used by witnesses and counterexamples, and helper lemmas
for the claim theorems.
-/

/-- Instantiation of the abstracted zod email and url predicates. -/
def ecTrue : String → Bool := fun _ => true

/-- A page on which every DOM query comes back empty. -/
def trivialPage : PageDoc :=
  { selText := fun _ => none, bodyText := "", jsonLd := none, telHref := none,
    mailtoHref := none, phoneMatch := none, emailMatch := none, ratingMatch := none,
    parsedHours := none }

def trivialScrape : ScrapedData :=
  { title := "T", description := none, page := trivialPage }

def okOracle : GeminiOracle :=
  { cuisine := .ok ["North Indian"], addressV := .ok [] }

/-- A schema-conformant record whose name is the given string. -/
def fullRecord (nm : String) : JSVal := .obj
  [("name", .str nm),
   ("address", .obj [("city", .str "Mumbai"), ("state", .str "Maharashtra"),
                     ("country", .str "India")]),
   ("cuisineTypes", .arr [.str "North Indian"]),
   ("contactInfo", .obj []),
   ("ratings", .obj [("sources", .obj [])]),
   ("operatingHours", .obj []),
   ("priceRange", .str "mid-range"),
   ("amenities", .arr []),
   ("dataSources", .arr [.obj [("source", .str "web-scraping"),
                               ("extractedAt", .str "2024-01-01"),
                               ("reliability", .num (mkRat 4 5))]])]

def longName250 : String := String.mk (List.replicate 250 'a')

/-- The page of the C7 counterexample: a loose selector hit and a parseable
structured-data address are both present. -/
def c7Page : PageDoc :=
  { selText := fun s => if s == ".address" then some "12 Loose Street, Mumbai Bazaar" else none,
    bodyText := "", jsonLd := some (.parsed (some (.strA "99 Structured Avenue, Pune"))),
    telHref := none, mailtoHref := none, phoneMatch := none, emailMatch := none,
    ratingMatch := none, parsedHours := none }

/-- The record persisted by the pipeline on the trivial page. -/
def trivialPersisted : PersistedRestaurant :=
  { name := "Unknown Restaurant", cuisineTypes := ["Indian"], status := "validated",
    completeness := "100", accuracy := "100", website := "https://r.example" }

def row0 : Storage.RestaurantRow :=
  { name := "R", cuisineTypes := ["Indian"], description := none, website := none }

lemma exceptMap_error_mem {α β : Type} {i : ZodIssue} {x : Except (List ZodIssue) α}
    (f : α → β) (hx : ∃ l, x = .error l ∧ i ∈ l) :
    ∃ l2, x.map f = .error l2 ∧ i ∈ l2 := by
  obtain ⟨l, hxl, hi⟩ := hx
  subst hxl
  exact ⟨l, rfl, hi⟩

lemma zodBoth_error_of_left_mem {α β : Type} {i : ZodIssue} {x : Except (List ZodIssue) α}
    (hx : ∃ l, x = .error l ∧ i ∈ l) (y : Except (List ZodIssue) β) :
    ∃ l2, zodBoth x y = .error l2 ∧ i ∈ l2 := by
  obtain ⟨l, hxl, hi⟩ := hx
  subst hxl
  cases y with
  | ok b => exact ⟨l, rfl, hi⟩
  | error e => exact ⟨l ++ e, rfl, List.mem_append_left _ hi⟩

lemma zodBoth_error_of_right_mem {α β : Type} (x : Except (List ZodIssue) α)
    {i : ZodIssue} {y : Except (List ZodIssue) β}
    (hy : ∃ l, y = .error l ∧ i ∈ l) :
    ∃ l2, zodBoth x y = .error l2 ∧ i ∈ l2 := by
  obtain ⟨l, hyl, hi⟩ := hy
  subst hyl
  cases x with
  | ok a => exact ⟨l, rfl, hi⟩
  | error e => exact ⟨e ++ l, rfl, List.mem_append_right _ hi⟩

lemma addressPhase_statuses (url : String) (gem : GeminiOracle)
    (ex : Extractor.ExtractedData) (vr : ValidationResult) (st : List String) (calls : ℕ) :
    ∃ last, (addressPhase url gem ex vr st calls).statuses = st ++ [last] := by
  unfold addressPhase
  by_cases h : vr.warnings.contains "Missing geographical coordinates"
  · rw [if_pos h]
    rcases h2 : gem.addressV with e | a
    · exact ⟨"failed", rfl⟩
    · exact ⟨"completed", rfl⟩
  · rw [if_neg h]
    exact ⟨"completed", rfl⟩

lemma llmPhase_statuses (url : String) (gem : GeminiOracle)
    (ex : Extractor.ExtractedData) (vr : ValidationResult) (st : List String) :
    ∃ last, (llmPhase url gem ex vr st).statuses = st ++ [last] := by
  unfold llmPhase
  by_cases h : ex.cuisineTypes.isEmpty
  · rw [if_pos h]
    rcases h2 : gem.cuisine with e | cts
    · exact ⟨"failed", rfl⟩
    · exact addressPhase_statuses url gem _ vr st 1
  · rw [if_neg h]
    exact addressPhase_statuses url gem ex vr st 0

lemma persisted_cuisines_persistPhase (url : String) (ex : Extractor.ExtractedData)
    (vr : ValidationResult) (st : List String) (calls : ℕ) (r : PersistedRestaurant)
    (h : (persistPhase url ex vr st calls).persisted = some r) :
    r.cuisineTypes = ex.cuisineTypes := by
  unfold persistPhase at h
  simp only [Option.some.injEq] at h
  rw [← h]
  rfl

lemma persisted_cuisines_addressPhase (url : String) (gem : GeminiOracle)
    (ex : Extractor.ExtractedData) (vr : ValidationResult) (st : List String) (calls : ℕ)
    (r : PersistedRestaurant)
    (h : (addressPhase url gem ex vr st calls).persisted = some r) :
    r.cuisineTypes = ex.cuisineTypes := by
  unfold addressPhase at h
  by_cases hw : vr.warnings.contains "Missing geographical coordinates"
  · rw [if_pos hw] at h
    rcases h2 : gem.addressV with e | a
    · rw [h2] at h
      simp [failTrace] at h
    · rw [h2] at h
      exact persisted_cuisines_persistPhase _ _ _ _ _ _ h
  · rw [if_neg hw] at h
    exact persisted_cuisines_persistPhase _ _ _ _ _ _ h

lemma persisted_cuisines_llmPhase (url : String) (gem : GeminiOracle)
    (ex : Extractor.ExtractedData) (vr : ValidationResult) (st : List String)
    (r : PersistedRestaurant)
    (hne : ex.cuisineTypes.isEmpty = false)
    (h : (llmPhase url gem ex vr st).persisted = some r) :
    r.cuisineTypes = ex.cuisineTypes := by
  unfold llmPhase at h
  rw [hne] at h
  simp only [Bool.false_eq_true, if_false] at h
  exact persisted_cuisines_addressPhase _ _ _ _ _ _ _ h

/-- C1: the claim states that each required field contributes an equal share
of 70 points and each optional field an equal share of 30, counted only when
present, non-null and non-empty, so that a record missing its name or city
scores strictly less than the filled record.  The code computes 100 for
every object-valued input: the reduce inside hasField turns the accumulator
into a boolean after its first step and the final strict comparison against
undefined is then vacuously true, so every field always counts.  The empty
record scores 100, the same as a fully filled record. -/
theorem c1_completeness_bug :
    (validateRestaurantData ecTrue ecTrue (JSVal.obj [])).completeness = 100
    ∧ calculateCompleteness (fullRecord "Spice Route") = 100
    ∧ (∀ fields : List (String × JSVal), calculateCompleteness (JSVal.obj fields) = 100) := by
  refine ⟨?_, calculateCompleteness_obj _, calculateCompleteness_obj⟩
  cases hp : parseRestaurantData ecTrue ecTrue (JSVal.obj []) with
  | ok vd =>
    have : exOk (parseRestaurantData ecTrue ecTrue (JSVal.obj [])) = false := by decide
    rw [hp] at this
    simp [exOk] at this
  | error issues =>
    have hrel : relaxedParse ecTrue ecTrue (JSVal.obj []) = .ok (JSVal.obj []) := rfl
    have hres : (validateRestaurantData ecTrue ecTrue (JSVal.obj [])).completeness
        = calculateCompleteness (JSVal.obj []) := by
      unfold validateRestaurantData
      rw [hp, hrel]
    rw [hres]
    exact calculateCompleteness_obj []

/-- On the valid path the completeness is always exactly 100: the parse
output is an object and, by the hasField bug, every object scores 100. -/
lemma validate_isValid_completeness_100 (ec uc : String → Bool) (d : JSVal)
    (h : (validateRestaurantData ec uc d).isValid = true) :
    (validateRestaurantData ec uc d).completeness = 100 := by
  cases hp : parseRestaurantData ec uc d with
  | ok vd =>
    unfold validateRestaurantData
    rw [hp]
    exact calculateCompleteness_obj _
  | error issues =>
    unfold validateRestaurantData at h
    rw [hp] at h
    simp at h

/-- C3: for every input (and both abstracted zod string predicates), the
completeness and accuracy returned by the Validator lie in the closed range
0 to 100: completeness by construction of the bounded weighted sum and
rounding, accuracy by the final clamp (and the zero defaults on the failure
path). -/
theorem c3_scores_in_range (ec uc : String → Bool) (d : JSVal) :
    0 ≤ (validateRestaurantData ec uc d).completeness
    ∧ (validateRestaurantData ec uc d).completeness ≤ 100
    ∧ 0 ≤ (validateRestaurantData ec uc d).accuracy
    ∧ (validateRestaurantData ec uc d).accuracy ≤ 100 := by
  unfold validateRestaurantData
  cases hp : parseRestaurantData ec uc d with
  | error issues =>
    cases hr : relaxedParse ec uc d with
    | error e2 =>
      simp only [hr]
      exact ⟨le_refl 0, by norm_num, le_refl 0, by norm_num⟩
    | ok pd =>
      simp only [hr]
      exact ⟨(calculateCompleteness_bounds pd).1, (calculateCompleteness_bounds pd).2,
             le_refl 0, by norm_num⟩
  | ok vd =>
    exact ⟨(calculateCompleteness_bounds _).1, (calculateCompleteness_bounds _).2,
           (calculateAccuracy_bounds vd).1, (calculateAccuracy_bounds vd).2⟩

/-- Two runs of the validator on the same input, as a pair. -/
def runValidatorTwice (ec uc : String → Bool) (d : JSVal) :
    ValidationResult × ValidationResult :=
  (validateRestaurantData ec uc d, validateRestaurantData ec uc d)

/-- C4: the Validator is a pure function of its input — the embedded
validateRestaurantData consults no ambient state (no clock, no randomness,
no mutation), so two runs on the same candidate record produce identical
results in every component: flag, scores, errors, missing fields and
warnings. -/
theorem c4_validator_deterministic (ec uc : String → Bool) (d : JSVal) :
    (runValidatorTwice ec uc d).1.isValid = (runValidatorTwice ec uc d).2.isValid
    ∧ (runValidatorTwice ec uc d).1.completeness = (runValidatorTwice ec uc d).2.completeness
    ∧ (runValidatorTwice ec uc d).1.accuracy = (runValidatorTwice ec uc d).2.accuracy
    ∧ (runValidatorTwice ec uc d).1.errors = (runValidatorTwice ec uc d).2.errors
    ∧ (runValidatorTwice ec uc d).1.missingFields = (runValidatorTwice ec uc d).2.missingFields
    ∧ (runValidatorTwice ec uc d).1.warnings = (runValidatorTwice ec uc d).2.warnings := by
  exact ⟨rfl, rfl, rfl, rfl, rfl, rfl⟩

/-- C5: the validator is a total function (it never raises: every input
yields a result record), and on a structural failure it returns valid false,
the rendered field-level errors and the missing-field paths, and a
best-effort completeness computed from the relaxed all-optional schema
parse, falling back to 0 when even that parse fails. -/
theorem c5_structural_failure_result (ec uc : String → Bool) (d : JSVal)
    (h : exOk (parseRestaurantData ec uc d) = false) :
    (validateRestaurantData ec uc d).isValid = false
    ∧ (validateRestaurantData ec uc d).errors
        = (errsOf (parseRestaurantData ec uc d)).map renderIssue
    ∧ (validateRestaurantData ec uc d).missingFields
        = extractMissingFields (errsOf (parseRestaurantData ec uc d))
    ∧ (validateRestaurantData ec uc d).completeness
        = (match relaxedParse ec uc d with
           | .ok pd => calculateCompleteness pd
           | .error _ => 0) := by
  cases hp : parseRestaurantData ec uc d with
  | ok vd =>
    rw [hp] at h
    simp [exOk] at h
  | error issues =>
    unfold validateRestaurantData
    rw [hp]
    exact ⟨rfl, rfl, rfl, rfl⟩

/-- C5 witness: the empty object fails the schema, and the conclusions hold
there. -/
theorem c5_witness :
    (validateRestaurantData ecTrue ecTrue (JSVal.obj [])).isValid = false
    ∧ (validateRestaurantData ecTrue ecTrue (JSVal.obj [])).errors
        = (errsOf (parseRestaurantData ecTrue ecTrue (JSVal.obj []))).map renderIssue
    ∧ (validateRestaurantData ecTrue ecTrue (JSVal.obj [])).missingFields
        = extractMissingFields (errsOf (parseRestaurantData ecTrue ecTrue (JSVal.obj [])))
    ∧ (validateRestaurantData ecTrue ecTrue (JSVal.obj [])).completeness
        = (match relaxedParse ecTrue ecTrue (JSVal.obj []) with
           | .ok pd => calculateCompleteness pd
           | .error _ => 0) :=
  c5_structural_failure_result ecTrue ecTrue (JSVal.obj []) (by decide)

/-- C2: for a work item whose fetch succeeded, the llm_processing stage is
entered exactly when the Validator outcome is invalid or its completeness is
strictly below 80; when the outcome is valid with completeness at least 80
the pipeline makes no external reasoning call and reaches persistence. -/
theorem c2_synthesis_iff (ec uc : String → Bool) (url nowIso : String)
    (sd : ScrapedData) (gem : GeminiOracle) :
    (("llm_processing" ∈ (processRestaurantUrl ec uc url nowIso (.ok sd) gem).statuses)
      ↔ ((validateRestaurantData ec uc
            (Extractor.extractRestaurantData sd.page url nowIso).toJSVal).isValid = false
         ∨ (validateRestaurantData ec uc
            (Extractor.extractRestaurantData sd.page url nowIso).toJSVal).completeness < 80))
    ∧ ((validateRestaurantData ec uc
          (Extractor.extractRestaurantData sd.page url nowIso).toJSVal).isValid = true →
        ¬((validateRestaurantData ec uc
          (Extractor.extractRestaurantData sd.page url nowIso).toJSVal).completeness < 80) →
        (processRestaurantUrl ec uc url nowIso (.ok sd) gem).geminiCalls = 0
        ∧ (processRestaurantUrl ec uc url nowIso (.ok sd) gem).persisted.isSome = true) := by
  set ex := Extractor.extractRestaurantData sd.page url nowIso with hex
  set vr := validateRestaurantData ec uc ex.toJSVal with hvr
  set tr := processRestaurantUrl ec uc url nowIso (.ok sd) gem with htrd
  have htr : tr = if vr.isValid = false ∨ vr.completeness < 80
      then llmPhase url gem ex vr (baseStatuses ++ ["llm_processing"])
      else persistPhase url ex vr baseStatuses 0 := rfl
  by_cases hcond : vr.isValid = false ∨ vr.completeness < 80
  · rw [htr, if_pos hcond]
    constructor
    · refine Iff.intro (fun _ => hcond) (fun _ => ?_)
      obtain ⟨last, hl⟩ := llmPhase_statuses url gem ex vr (baseStatuses ++ ["llm_processing"])
      rw [hl]
      apply List.mem_append_left
      simp [baseStatuses]
    · intro hval hcomp
      rcases hcond with h1 | h2
      · rw [hval] at h1
        exact absurd h1 (by decide)
      · exact absurd h2 hcomp
  · rw [htr, if_neg hcond]
    constructor
    · apply iff_of_false
      · show ¬("llm_processing" ∈ baseStatuses ++ ["completed"])
        decide
      · exact hcond
    · intro _ _
      exact ⟨rfl, rfl⟩

/-- C2 witness: on the trivial page the Validator outcome is valid with
completeness 100, the llm_processing stage is not entered and no reasoning
call is made. -/
theorem c2_witness :
    ("llm_processing" ∉
      (processRestaurantUrl ecTrue ecTrue "https://r.example" "2024-01-01"
        (.ok trivialScrape) okOracle).statuses)
    ∧ (processRestaurantUrl ecTrue ecTrue "https://r.example" "2024-01-01"
        (.ok trivialScrape) okOracle).geminiCalls = 0 := by
  obtain ⟨h1, h2⟩ := c2_synthesis_iff ecTrue ecTrue "https://r.example" "2024-01-01"
    trivialScrape okOracle
  have hval : (validateRestaurantData ecTrue ecTrue
      (Extractor.extractRestaurantData trivialScrape.page "https://r.example"
        "2024-01-01").toJSVal).isValid = true := by decide
  have hcomp := validate_isValid_completeness_100 ecTrue ecTrue
    (Extractor.extractRestaurantData trivialScrape.page "https://r.example"
      "2024-01-01").toJSVal hval
  have hnc : ¬((validateRestaurantData ecTrue ecTrue
      (Extractor.extractRestaurantData trivialScrape.page "https://r.example"
        "2024-01-01").toJSVal).completeness < 80) := by
    rw [hcomp]
    decide
  constructor
  · intro hmem
    rcases h1.mp hmem with hv | hc
    · rw [hval] at hv
      exact absurd hv (by decide)
    · exact hnc hc
  · exact (h2 hval hnc).1

/-- C8: when the fetch stage fails, the queue entry is marked failed with a
completion timestamp, the human-readable error message is retained on it,
and no restaurant record is persisted. -/
theorem c8_fetch_failure (ec uc : String → Bool) (url nowIso msg : String)
    (gem : GeminiOracle) :
    (processRestaurantUrl ec uc url nowIso (.error msg) gem).persisted = none
    ∧ (processRestaurantUrl ec uc url nowIso (.error msg) gem).errorMessage = some msg
    ∧ (processRestaurantUrl ec uc url nowIso (.error msg) gem).completedAtSet = true
    ∧ (processRestaurantUrl ec uc url nowIso (.error msg) gem).statuses.getLast?
        = some "failed"
    ∧ (processRestaurantUrl ec uc url nowIso (.error msg) gem).geminiCalls = 0 := by
  exact ⟨rfl, rfl, rfl, rfl, rfl⟩

/-- C6: every restaurant record persisted by the pipeline has a non-empty
cuisine list.  The guarantee comes from the extractor, which substitutes the
generic tag when no keyword matches; at the persistence step the JS
or-default keeps any array (an empty array is truthy and would pass
through), but an empty list can never reach that point. -/
theorem c6_persisted_cuisines_nonempty (ec uc : String → Bool) (url nowIso : String)
    (sd : ScrapedData) (gem : GeminiOracle) (r : PersistedRestaurant)
    (h : (processRestaurantUrl ec uc url nowIso (.ok sd) gem).persisted = some r) :
    r.cuisineTypes ≠ [] := by
  set ex := Extractor.extractRestaurantData sd.page url nowIso with hex
  set vr := validateRestaurantData ec uc ex.toJSVal with hvr
  have hne : ex.cuisineTypes ≠ [] :=
    Extractor.extractCuisineTypes_ne_nil sd.page (Extractor.extractName sd.page)
  have hie : ex.cuisineTypes.isEmpty = false := by
    rcases hx : ex.cuisineTypes with _ | ⟨a, l⟩
    · exact absurd hx hne
    · rfl
  have htr : processRestaurantUrl ec uc url nowIso (.ok sd) gem
      = if vr.isValid = false ∨ vr.completeness < 80
        then llmPhase url gem ex vr (baseStatuses ++ ["llm_processing"])
        else persistPhase url ex vr baseStatuses 0 := rfl
  rw [htr] at h
  by_cases hcond : vr.isValid = false ∨ vr.completeness < 80
  · rw [if_pos hcond] at h
    have := persisted_cuisines_llmPhase url gem ex vr _ r hie h
    rw [this]
    exact hne
  · rw [if_neg hcond] at h
    have := persisted_cuisines_persistPhase url ex vr baseStatuses 0 r h
    rw [this]
    exact hne

/-- C6 witness: on the trivial page the pipeline persists a record whose
cuisine list is the generic default, which is non-empty. -/
theorem c6_witness : trivialPersisted.cuisineTypes ≠ [] := by
  apply c6_persisted_cuisines_nonempty ecTrue ecTrue "https://r.example" "2024-01-01"
    trivialScrape okOracle trivialPersisted
  set ex := Extractor.extractRestaurantData trivialScrape.page "https://r.example"
    "2024-01-01" with hex
  set vr := validateRestaurantData ecTrue ecTrue ex.toJSVal with hvr
  have hval : vr.isValid = true := by decide
  have hcomp : vr.completeness = 100 :=
    validate_isValid_completeness_100 ecTrue ecTrue ex.toJSVal hval
  have hcond : ¬(vr.isValid = false ∨ vr.completeness < 80) := by
    rintro (h1 | h2)
    · rw [hval] at h1
      exact absurd h1 (by decide)
    · rw [hcomp] at h2
      exact absurd h2 (by decide)
  have htr : processRestaurantUrl ecTrue ecTrue "https://r.example" "2024-01-01"
      (.ok trivialScrape) okOracle
      = if vr.isValid = false ∨ vr.completeness < 80
        then llmPhase "https://r.example" okOracle ex vr (baseStatuses ++ ["llm_processing"])
        else persistPhase "https://r.example" ex vr baseStatuses 0 := rfl
  rw [htr, if_neg hcond]
  show some _ = some trivialPersisted
  apply congrArg some
  have hacc : vr.accuracy = 100 := by decide
  show ({ name := jsStrOrDefault ex.name "Unknown Restaurant"
          cuisineTypes := jsArrOrDefault ex.cuisineTypes ["Indian"]
          status := if vr.isValid then "validated" else "pending"
          completeness := toString vr.completeness
          accuracy := toString vr.accuracy
          website := "https://r.example" } : PersistedRestaurant) = trivialPersisted
  rw [hval, hcomp, hacc]
  decide

/-- C7 counterexample: a page carrying both a loose-selector address text and
a parseable structured-data (JSON-LD) address; the Fetcher returns the loose
text, not the structured-data address, refuting the claimed precedence. -/
theorem c7_counterexample :
    WebScraper.structuredAddress c7Page = some "99 Structured Avenue, Pune"
    ∧ firstLongText c7Page WebScraper.addressSelectors = some "12 Loose Street, Mumbai Bazaar"
    ∧ WebScraper.extractAddress c7Page = some "12 Loose Street, Mumbai Bazaar"
    ∧ WebScraper.extractAddress c7Page ≠ some "99 Structured Avenue, Pune" := by
  refine ⟨rfl, by decide, by decide, by decide⟩

/-- C7 amended: the precedence is the reverse of the claim — the loose
selector matches take precedence, and the structured-data block is consulted
only when no selector yields a text longer than 10 characters. -/
theorem c7_amended_loose_first (p : PageDoc) :
    (∀ t, firstLongText p WebScraper.addressSelectors = some t →
      WebScraper.extractAddress p = some t)
    ∧ (firstLongText p WebScraper.addressSelectors = none →
      WebScraper.extractAddress p = WebScraper.structuredAddress p) := by
  constructor
  · intro t ht
    unfold WebScraper.extractAddress
    rw [ht]
  · intro h
    unfold WebScraper.extractAddress
    rw [h]

/-- C7 witness for the amended claim, at the counterexample page. -/
theorem c7_amended_witness :
    WebScraper.extractAddress c7Page = some "12 Loose Street, Mumbai Bazaar" :=
  (c7_amended_loose_first c7Page).1 "12 Loose Street, Mumbai Bazaar" (by decide)

/-- C9 counterexample: the schema only requires a non-empty name
(z.string().min(1)), so a record whose name has length 1 passes validation,
while the claim demands it be rejected as shorter than 2 characters. -/
theorem c9_counterexample :
    ("A" : String).length = 1
    ∧ (validateRestaurantData ecTrue ecTrue (fullRecord "A")).isValid = true := by
  exact ⟨rfl, by decide⟩

set_option maxRecDepth 8000 in
/-- C9 amended: the Validator enforces only a minimum name length of 1: a
record with an empty name is rejected as structurally invalid with a name
error, while names of length 1 and length 250 are accepted (there is no
2-character minimum and no 200-character maximum). -/
theorem c9_amended_name_min_one :
    (∀ ec uc : String → Bool, ∀ d : JSVal, d.getField "name" = JSVal.str "" →
      (validateRestaurantData ec uc d).isValid = false
      ∧ "name: String must contain at least 1 character(s)"
          ∈ (validateRestaurantData ec uc d).errors)
    ∧ (validateRestaurantData ecTrue ecTrue (fullRecord "A")).isValid = true
    ∧ (validateRestaurantData ecTrue ecTrue (fullRecord longName250)).isValid = true := by
  refine ⟨?_, by decide, by decide⟩
  intro ec uc d h
  cases d with
  | obj fs =>
    have hname : atKey (JSVal.obj fs) "name" (zodStringMin 1)
        = .error [{ path := ["name"], code := "too_small", received := none,
                    message := "String must contain at least 1 character(s)" }] := by
      unfold atKey
      rw [h]
      rfl
    have hmem : ∃ l2, parseRestaurantData ec uc (JSVal.obj fs) = .error l2
        ∧ ({ path := ["name"], code := "too_small", received := none,
             message := "String must contain at least 1 character(s)" } : ZodIssue) ∈ l2 := by
      unfold parseRestaurantData
      apply exceptMap_error_mem
      apply zodBoth_error_of_right_mem
      apply zodBoth_error_of_left_mem
      exact ⟨_, hname, List.mem_singleton_self _⟩
    obtain ⟨l2, hp, hi⟩ := hmem
    constructor
    · unfold validateRestaurantData
      rw [hp]
    · unfold validateRestaurantData
      rw [hp]
      show "name: String must contain at least 1 character(s)" ∈ l2.map renderIssue
      have hr : "name: String must contain at least 1 character(s)"
          = renderIssue { path := ["name"], code := "too_small", received := none,
                          message := "String must contain at least 1 character(s)" } := rfl
      rw [hr]
      exact List.mem_map_of_mem renderIssue hi
  | undefined => exact JSVal.noConfusion h
  | null => exact JSVal.noConfusion h
  | bool b => exact JSVal.noConfusion h
  | num q => exact JSVal.noConfusion h
  | str s => exact JSVal.noConfusion h
  | arr xs => exact JSVal.noConfusion h

/-- C9 witness for the amended claim: a record with an empty name is invalid
and carries the name error. -/
theorem c9_amended_witness :
    (validateRestaurantData ecTrue ecTrue (fullRecord "")).isValid = false
    ∧ "name: String must contain at least 1 character(s)"
        ∈ (validateRestaurantData ecTrue ecTrue (fullRecord "")).errors :=
  c9_amended_name_min_one.1 ecTrue ecTrue (fullRecord "") rfl

/-- C10: after createRestaurant and deleteRestaurant the totalRestaurants
metric equals the number of stored rows (both assign the map size); the
seeded demonstration value 12847 is held with an empty store and is
discarded by the first such call; deleteRestaurant on an unknown id is a
no-op on the stored rows and never fails (it is a total function). -/
theorem c10_storage_metric_consistency :
    (∀ st id ins, ((Storage.createRestaurant st id ins).1).totalRestaurants
        = ((Storage.createRestaurant st id ins).1).restaurants.length)
    ∧ (∀ st id, (Storage.deleteRestaurant st id).totalRestaurants
        = (Storage.deleteRestaurant st id).restaurants.length)
    ∧ (Storage.initialState.totalRestaurants = 12847
        ∧ Storage.initialState.restaurants.length = 0)
    ∧ (∀ id ins, ((Storage.createRestaurant Storage.initialState id ins).1).totalRestaurants = 1)
    ∧ (∀ st id, st.restaurants.all (fun e => e.1 ≠ id) = true →
        (Storage.deleteRestaurant st id).restaurants = st.restaurants
        ∧ (Storage.deleteRestaurant st id).totalRestaurants = st.restaurants.length) := by
  refine ⟨fun st id ins => rfl, fun st id => rfl, ⟨rfl, rfl⟩, fun id ins => rfl, ?_⟩
  intro st id hall
  have hfe : st.restaurants.filter (fun e => e.1 ≠ id) = st.restaurants := by
    apply List.filter_eq_self.mpr
    intro a ha
    exact List.all_eq_true.mp hall a ha
  refine ⟨hfe, ?_⟩
  show (st.restaurants.filter (fun e => e.1 ≠ id)).length = st.restaurants.length
  rw [hfe]

/-- C10 witness: deleting an id that is not stored leaves the single stored
row and the metric untouched. -/
theorem c10_witness :
    (Storage.deleteRestaurant
      { restaurants := [("a", row0)], totalRestaurants := 1 } "b").restaurants
      = [("a", row0)]
    ∧ (Storage.deleteRestaurant
      { restaurants := [("a", row0)], totalRestaurants := 1 } "b").totalRestaurants = 1 := by
  have h := c10_storage_metric_consistency.2.2.2.2
    { restaurants := [("a", row0)], totalRestaurants := 1 } "b" (by decide)
  exact ⟨h.1, by rw [h.2]; rfl⟩
